import Mathlib

/-!
Verification of the OCR-to-text web service (`app.py`).

The development shallowly embeds the program's own logic:

* `allowed_file`     — the extension allow-list gate (app.py line 23);
* `process_pdf`      — the per-page PDF text/OCR resolver (app.py lines 42-56);
* `process`          — the `/process` request handler (app.py lines 62-127),
  with the external libraries (werkzeug's filename sanitizer, pdfplumber,
  pytesseract, python-docx, the UTF-8 file reader and the wall clock)
  abstracted into an `Env` of oracles, and the filesystem modelled as an
  association list from paths to file data.

Python string idioms are embedded explicitly over the character lists of
Lean strings: `rsplitExt`/`rsplitBase` model `s.rsplit('.', 1)`, `strLower`
models `s.lower()`, `pyStrip` models `s.strip()`, `pySplitLines` models
`s.split('\n')`.
-/

/-- Python's default `str.strip()` whitespace class (the ASCII part). -/
def isPySpace (c : Char) : Bool :=
  c = ' ' || c = '\t' || c = '\n' || c = '\r' || c = '\x0b' || c = '\x0c'

/-- Python's `s.strip()`: drop leading and trailing whitespace. -/
def pyStrip (s : String) : String :=
  (((s.data.dropWhile isPySpace).reverse.dropWhile isPySpace).reverse).asString

/-- Split a character list at every occurrence of `c`; the resulting groups
never contain `c` and there is one more group than occurrences of `c`. -/
def splitOnChar (c : Char) : List Char → List (List Char)
  | [] => [[]]
  | x :: xs =>
    match splitOnChar c xs with
    | [] => [[]]
    | g :: gs => if x = c then [] :: g :: gs else (x :: g) :: gs

/-- Python's `s.split('\n')`. -/
def pySplitLines (s : String) : List String :=
  (splitOnChar '\n' s.data).map List.asString

/-- Python's slice `s[:n]`: the first `n` characters (code points). -/
def pySlice (s : String) (n : Nat) : String :=
  (s.data.take n).asString

/-- The part of `s` after the LAST occurrence of `c`, together with the part
before it: `splitLast c l = some (pre, post)` models the two cells of Python's
`s.rsplit(c, 1)` when `c` occurs in `l`, and `none` when it does not. -/
def splitLast (c : Char) : List Char → Option (List Char × List Char)
  | [] => none
  | x :: xs =>
    match splitLast c xs with
    | some (pre, post) => some (x :: pre, post)
    | none => if x = c then some ([], xs) else none

/-- `filename.rsplit('.', 1)[1]`: the substring after the final dot, when a
dot exists; indexing `[1]` raises `IndexError` otherwise, hence `Option`. -/
def rsplitExt (s : String) : Option String :=
  (splitLast '.' s.data).map (fun pr => pr.2.asString)

/-- `filename.rsplit('.', 1)[0]`: the substring before the final dot, or the
whole string when there is no dot. -/
def rsplitBase (s : String) : String :=
  match splitLast '.' s.data with
  | some pr => pr.1.asString
  | none => s

/-- Python's `s.lower()` (per-character ASCII lowering). -/
def strLower (s : String) : String := (s.data.map Char.toLower).asString

/-- `ALLOWED_EXTENSIONS = {'pdf', 'png', 'jpg', 'jpeg', 'docx', 'txt'}`
(app.py line 18). -/
def ALLOWED_EXTENSIONS : List String := ["pdf", "png", "jpg", "jpeg", "docx", "txt"]

/-- `app.config['UPLOAD_FOLDER']` (app.py line 15). -/
def UPLOAD_FOLDER : String := "uploads"

/-- `app.config['OUTPUT_FOLDER']` (app.py line 16). -/
def OUTPUT_FOLDER : String := "outputs"

/-- `allowed_file` (app.py lines 23-24):
`'.' in filename and filename.rsplit('.', 1)[1].lower() in ALLOWED_EXTENSIONS`.
The `'.' in filename` conjunct exactly guards the success of the `[1]` index,
so the function is embedded as a match on `rsplitExt`. -/
def allowed_file (filename : String) : Bool :=
  match rsplitExt filename with
  | some e => ALLOWED_EXTENSIONS.contains (strLower e)
  | none => false

/-- A page of an opened PDF, as `process_pdf` consumes it: `extract_text` is
the embedded text layer reported by `page.extract_text()` (`None` possible),
and `ocr_results lang` is the list of OCR strings obtained by rasterizing
just this page (`convert_from_path(path, first_page=n, last_page=n)`),
pre-processing each produced image and running `extract_ocr` on it with the
given language — one list entry per produced image. -/
structure PdfPage where
  extract_text : Option String
  ocr_results : String → List String

/-- One iteration of the `for page in pdf.pages` loop of `process_pdf`
(app.py lines 45-55): the Python guard is `if content and
len(content.strip()) > 20`, where `content` is falsy when it is `None` or
the empty string. -/
def pdfPageStep (lang text : String) (page : PdfPage) : String :=
  match page.extract_text with
  | some content =>
    if content ≠ "" ∧ 20 < (pyStrip content).length then
      text ++ content ++ "\n"
    else
      (page.ocr_results lang).foldl (fun t o => t ++ o ++ "\n") text
  | none => (page.ocr_results lang).foldl (fun t o => t ++ o ++ "\n") text

/-- `process_pdf` (app.py lines 42-56): fold `pdfPageStep` over the pages in
document order, starting from `text = ""`. -/
def process_pdf (pages : List PdfPage) (lang : String) : String :=
  pages.foldl (pdfPageStep lang) ""

-- ## The filesystem and the request handler

/-- Contents of a file on disk. Plain-text writes (`open(..., 'w')`) store
`bytes`; the python-docx writer stores a one-paragraph document; the pandas
CSV writer stores a header, the data rows and a byte-order mark flag. -/
inductive FileData where
  | bytes (content : String)
  | docxFile (paragraph : String)
  | csvFile (header : String) (rows : List String) (bom : Bool)
deriving DecidableEq, Repr

/-- The filesystem: an association list from paths to file data. -/
abbrev FS := List (String × FileData)

/-- Write (create or overwrite) the file at `p`. -/
def fsWrite (fs : FS) (p : String) (d : FileData) : FS :=
  (p, d) :: fs.filter (fun e => e.1 ≠ p)

/-- `os.remove` guarded by `os.path.exists`: afterwards `p` is absent. -/
def fsRemove (fs : FS) (p : String) : FS :=
  fs.filter (fun e => e.1 ≠ p)

/-- Read the file at `p`, if present. -/
def fsLookup (fs : FS) (p : String) : Option FileData :=
  (fs.find? (fun e => e.1 = p)).map (fun e => e.2)

/-- The multipart `POST /process` request: presence of the `file` part, the
client-supplied filename, the uploaded bytes, and the optional `format` and
`lang` form fields (`None` when the field is absent, so that the handler's
defaulting is visible). -/
structure Request where
  hasFile : Bool
  filename : String
  fileContent : String
  format : Option String
  lang : Option String
deriving DecidableEq, Repr

/-- The handler's JSON responses: 400, 500, or the success payload. -/
inductive Response where
  | badRequest (error : String)
  | serverError (error : String)
  | ok (preview : String) (download_url : String) (filename : String)
deriving DecidableEq, Repr

/-- The external collaborators of the handler, as oracles:
`secure_filename` is werkzeug's sanitizer; `timestamp` is
`datetime.now().strftime("%Y%m%d_%H%M%S")` for this request; `parse_pdf`
opens the uploaded bytes as a PDF and yields its pages (or raises);
`image_ocr` is `extract_ocr(preprocess_image(Image.open(...)), lang)` on the
uploaded bytes (or raises); `docx_paragraphs` yields the paragraph texts of
the uploaded bytes as a Word document (or raises); `read_utf8` decodes the
uploaded bytes as UTF-8 (or raises). An `Except.error` models a Python
exception reaching the handler's `except` clause. -/
structure Env where
  secure_filename : String → String
  timestamp : String
  parse_pdf : String → Except String (List PdfPage)
  image_ocr : String → String → Except String String
  docx_paragraphs : String → Except String (List String)
  read_utf8 : String → Except String String

/-- The extraction dispatch (app.py lines 82-92), keyed on the lowercase
extension `ext`: `pdf` → `process_pdf`; `jpg`/`jpeg`/`png` → image OCR;
`docx` → paragraphs joined with `"\n"`; anything else → UTF-8 file read. -/
def dispatch_extract (env : Env) (content lang ext : String) :
    Except String String :=
  if ext = "pdf" then
    (env.parse_pdf content).map (fun pages => process_pdf pages lang)
  else if ["jpg", "jpeg", "png"].contains ext then
    env.image_ocr content lang
  else if ext = "docx" then
    (env.docx_paragraphs content).map (fun ps => String.intercalate "\n" ps)
  else
    env.read_utf8 content

/-- The save logic (app.py lines 103-113): one artifact for `txt`, `md`,
`docx` or `csv`; any other target format writes nothing. -/
def format_output (target_format extracted_text out_path : String) (fs : FS) : FS :=
  if target_format = "txt" then
    fsWrite fs out_path (.bytes extracted_text)
  else if target_format = "md" then
    fsWrite fs out_path (.bytes ("# OCR Result\n\n" ++ extracted_text))
  else if target_format = "docx" then
    fsWrite fs out_path (.docxFile extracted_text)
  else if target_format = "csv" then
    fsWrite fs out_path
      (.csvFile "Content"
        ((pySplitLines extracted_text).filter (fun l => pyStrip l ≠ "")) true)
  else fs

/-- The body of the handler's `try` block (app.py lines 78-120), for the
already-sanitized `filename` and the filesystem `fs1` holding the staged
upload. `Except.error` is an exception flying towards the `except` clause;
note that `filename.rsplit('.', 1)[1]` itself raises `IndexError` when the
sanitized filename has no dot. -/
def process_try (env : Env) (req : Request) (filename : String) (fs1 : FS) :
    Except String (Response × FS) :=
  match rsplitExt filename with
  | none => .error "list index out of range"
  | some e =>
    let ext := strLower e
    let lang_choice := req.lang.getD "eng+hin"
    let target_format := req.format.getD "txt"
    match dispatch_extract env req.fileContent lang_choice ext with
    | .error msg => .error msg
    | .ok extracted_text =>
      if pyStrip extracted_text = "" then
        .ok (.badRequest "Could not detect any text. Ensure the image is clear.", fs1)
      else
        let base_name := rsplitBase filename
        let out_filename := base_name ++ "_" ++ env.timestamp ++ "." ++ target_format
        let out_path := OUTPUT_FOLDER ++ "/" ++ out_filename
        let fs2 := format_output target_format extracted_text out_path fs1
        .ok (.ok (pySlice extracted_text 1500) ("/download/" ++ out_filename) out_filename, fs2)

/-- The `/process` handler (app.py lines 62-127): the two 400 guards, the
`file.save` to the staging path, the `try`/`except`/`finally` with the
unconditional removal of the staged upload on every exit path. -/
def process (env : Env) (req : Request) (fs0 : FS) : Response × FS :=
  if req.hasFile = false then (.badRequest "No file part", fs0)
  else if req.filename = "" then (.badRequest "No selected file", fs0)
  else
    let filename := env.secure_filename req.filename
    let input_path := UPLOAD_FOLDER ++ "/" ++ filename
    let fs1 := fsWrite fs0 input_path (.bytes req.fileContent)
    match process_try env req filename fs1 with
    | .ok (resp, fs2) => (resp, fsRemove fs2 input_path)
    | .error e => (.serverError e, fsRemove fs1 input_path)

/-- The staging path of a request's upload. -/
def inputPath (env : Env) (req : Request) : String :=
  UPLOAD_FOLDER ++ "/" ++ env.secure_filename req.filename

/-- The artifact filename a successful run of the handler produces. -/
def outFilename (env : Env) (req : Request) : String :=
  rsplitBase (env.secure_filename req.filename) ++ "_" ++ env.timestamp ++ "."
    ++ req.format.getD "txt"

/-- A concrete environment for evaluating the handler on test inputs: the
sanitizer keeps the name, the clock reads 2024-01-01 00:00:00, the binary
backends are unavailable (they raise), and the UTF-8 reader returns the
uploaded bytes. -/
def testEnv : Env where
  secure_filename := fun s => s
  timestamp := "20240101_000000"
  parse_pdf := fun _ => .error "pdf backend unavailable"
  image_ocr := fun _ _ => .error "ocr backend unavailable"
  docx_paragraphs := fun _ => .error "docx backend unavailable"
  read_utf8 := fun c => .ok c

/-- `testEnv` one second later. -/
def testEnvLater : Env :=
  { testEnv with timestamp := "20240101_000001" }

-- ## Basic lemmas: `splitLast`, string folds, the filesystem

theorem splitLast_eq_none_iff (c : Char) (l : List Char) :
    splitLast c l = none ↔ c ∉ l := by
  induction l with
  | nil => simp [splitLast]
  | cons x xs ih =>
    cases h : splitLast c xs with
    | some pr =>
      have hmem : c ∈ xs := by
        by_contra hc
        rw [ih.mpr hc] at h
        exact Option.noConfusion h
      constructor
      · intro hnone; simp [splitLast, h] at hnone
      · intro hnot; exact absurd (List.mem_cons_of_mem x hmem) hnot
    | none =>
      by_cases hx : x = c
      · simp [splitLast, h, hx]
      · have hxc : ¬ c = x := fun hh => hx hh.symm
        simp [splitLast, h, hx, List.mem_cons, ih.mp h, hxc]

theorem splitLast_isSome_iff (c : Char) (l : List Char) :
    (splitLast c l).isSome = true ↔ c ∈ l := by
  constructor
  · intro hs
    by_contra hc
    rw [(splitLast_eq_none_iff c l).mpr hc] at hs
    simp at hs
  · intro hm
    cases h : splitLast c l with
    | none => exact absurd hm ((splitLast_eq_none_iff c l).mp h)
    | some pr => simp

/-- `splitLast` recovers the decomposition at the last occurrence. -/
theorem splitLast_append (c : Char) (pre post : List Char) (h : c ∉ post) :
    splitLast c (pre ++ c :: post) = some (pre, post) := by
  induction pre with
  | nil =>
    simp [splitLast, (splitLast_eq_none_iff c post).mpr h]
  | cons x xs ih =>
    simp [splitLast, ih]

theorem asString_data (s : String) : s.data.asString = s := by
  cases s; rfl

theorem rsplitExt_append (base e : String) (h : '.' ∉ e.data) :
    rsplitExt (base ++ "." ++ e) = some e := by
  have hdata : (base ++ "." ++ e).data = base.data ++ '.' :: e.data := by
    simp [String.data_append]
  rw [rsplitExt, hdata, splitLast_append '.' base.data e.data h]
  simp [asString_data]

theorem rsplitExt_isSome_iff (s : String) :
    (rsplitExt s).isSome = true ↔ '.' ∈ s.data := by
  rw [← splitLast_isSome_iff '.' s.data, rsplitExt]
  cases splitLast '.' s.data <;> simp

/-- A string whose stripped form has positive length is not empty. -/
theorem ne_empty_of_strip_length_pos (s : String) (h : 0 < (pyStrip s).length) :
    s ≠ "" := by
  intro he
  rw [he] at h
  exact absurd h (by decide)

/-- A fold whose step appends on the left factors through the empty
accumulator. -/
theorem foldl_acc_of_step {α : Type} (f : String → α → String)
    (hf : ∀ acc x, f acc x = acc ++ f "" x) :
    ∀ (l : List α) (acc : String), l.foldl f acc = acc ++ l.foldl f "" := by
  intro l
  induction l with
  | nil => intro acc; simp [List.foldl, String.append_empty]
  | cons x xs ih =>
    intro acc
    simp only [List.foldl]
    rw [ih (f acc x), ih (f "" x), hf acc x, String.append_assoc]

theorem join_cons (s : String) (l : List String) :
    String.join (s :: l) = s ++ String.join l := by
  have h := foldl_acc_of_step (fun r t => r ++ t) (fun acc x => rfl)
  simp only [String.join, List.foldl]
  rw [h l ("" ++ s), String.empty_append]

/-- The inner OCR fold of `pdfPageStep` is the concatenation of the OCR
outputs, each with a trailing newline. -/
theorem ocr_foldl_eq_join (l : List String) :
    l.foldl (fun t o => t ++ o ++ "\n") "" =
      String.join (l.map (fun o => o ++ "\n")) := by
  induction l with
  | nil => rfl
  | cons o os ih =>
    have hstep : ∀ (acc x : String),
        acc ++ x ++ "\n" = acc ++ ("" ++ x ++ "\n") := by
      intro acc x
      rw [String.empty_append, String.append_assoc]
    simp only [List.foldl, List.map]
    rw [join_cons, foldl_acc_of_step (fun t o => t ++ o ++ "\n") hstep os, ih,
      String.empty_append]

theorem pdfPageStep_some (lang text content : String) (f : String → List String) :
    pdfPageStep lang text ⟨some content, f⟩ =
      if content ≠ "" ∧ 20 < (pyStrip content).length then text ++ content ++ "\n"
      else (f lang).foldl (fun t o => t ++ o ++ "\n") text := rfl

theorem pdfPageStep_none (lang text : String) (f : String → List String) :
    pdfPageStep lang text ⟨none, f⟩ =
      (f lang).foldl (fun t o => t ++ o ++ "\n") text := rfl

theorem pdfPageStep_acc (lang acc : String) (page : PdfPage) :
    pdfPageStep lang acc page = acc ++ pdfPageStep lang "" page := by
  have hstep : ∀ (a x : String), a ++ x ++ "\n" = a ++ ("" ++ x ++ "\n") := by
    intro a x
    rw [String.empty_append, String.append_assoc]
  obtain ⟨et, f⟩ := page
  cases et with
  | none =>
    rw [pdfPageStep_none, pdfPageStep_none]
    exact foldl_acc_of_step (fun t o => t ++ o ++ "\n") hstep _ acc
  | some content =>
    rw [pdfPageStep_some, pdfPageStep_some]
    by_cases hc : content ≠ "" ∧ 20 < (pyStrip content).length
    · rw [if_pos hc, if_pos hc, String.empty_append, String.append_assoc]
    · rw [if_neg hc, if_neg hc]
      exact foldl_acc_of_step (fun t o => t ++ o ++ "\n") hstep _ acc

theorem process_pdf_singleton (page : PdfPage) (lang : String) :
    process_pdf [page] lang = pdfPageStep lang "" page := rfl

-- Filesystem lemmas.

theorem fsLookup_cons_of_ne (e : String × FileData) (fs : FS) (q : String)
    (h : ¬ e.1 = q) : fsLookup (e :: fs) q = fsLookup fs q := by
  simp only [fsLookup]
  rw [List.find?_cons_of_neg _ (by simp [h])]

theorem fsLookup_cons_of_eq (e : String × FileData) (fs : FS) (q : String)
    (h : e.1 = q) : fsLookup (e :: fs) q = some e.2 := by
  simp only [fsLookup]
  rw [List.find?_cons_of_pos _ (by simp [h])]
  rfl

theorem fsRemove_cons (e : String × FileData) (fs : FS) (p : String) :
    fsRemove (e :: fs) p =
      if e.1 = p then fsRemove fs p else e :: fsRemove fs p := by
  simp only [fsRemove, List.filter_cons]
  by_cases h : e.1 = p <;> simp [h]

theorem fsLookup_fsRemove_self (fs : FS) (p : String) :
    fsLookup (fsRemove fs p) p = none := by
  induction fs with
  | nil => rfl
  | cons e fs ih =>
    rw [fsRemove_cons]
    by_cases h : e.1 = p
    · rw [if_pos h]; exact ih
    · rw [if_neg h, fsLookup_cons_of_ne e _ p h]; exact ih

theorem fsLookup_fsRemove_ne (fs : FS) (p q : String) (h : q ≠ p) :
    fsLookup (fsRemove fs p) q = fsLookup fs q := by
  induction fs with
  | nil => rfl
  | cons e fs ih =>
    rw [fsRemove_cons]
    by_cases he : e.1 = p
    · have heq : ¬ e.1 = q := by
        intro hq
        exact h (by rw [← hq, he])
      rw [if_pos he, fsLookup_cons_of_ne e fs q heq]
      exact ih
    · by_cases hq : e.1 = q
      · rw [if_neg he, fsLookup_cons_of_eq e _ q hq, fsLookup_cons_of_eq e fs q hq]
      · rw [if_neg he, fsLookup_cons_of_ne e _ q hq, fsLookup_cons_of_ne e fs q hq]
        exact ih

theorem fsLookup_fsWrite_self (fs : FS) (p : String) (d : FileData) :
    fsLookup (fsWrite fs p d) p = some d := by
  show fsLookup ((p, d) :: fsRemove fs p) p = some d
  rw [fsLookup_cons_of_eq (p, d) _ p rfl]

theorem fsLookup_fsWrite_ne (fs : FS) (p q : String) (d : FileData) (h : q ≠ p) :
    fsLookup (fsWrite fs p d) q = fsLookup fs q := by
  have h1 : ¬ (p, d).1 = q := fun hh => h hh.symm
  show fsLookup ((p, d) :: fsRemove fs p) q = fsLookup fs q
  rw [fsLookup_cons_of_ne (p, d) _ q h1, fsLookup_fsRemove_ne fs p q h]

-- ## Claim C3: the Format Gate

/-- C3: `allowed_file` returns true iff the filename contains a `'.'` and the
lowercase substring after the final `'.'` is in {pdf, png, jpg, jpeg, docx,
txt}; a filename with no `'.'` is rejected; a filename ending in an
allow-listed extension, in any letter case, is accepted. -/
theorem C3_format_gate (filename : String) :
    (allowed_file filename = true ↔
      ('.' ∈ filename.data ∧
        ∃ e, rsplitExt filename = some e ∧ strLower e ∈ ALLOWED_EXTENSIONS)) ∧
    ('.' ∉ filename.data → allowed_file filename = false) ∧
    (∀ base e : String, '.' ∉ e.data → strLower e ∈ ALLOWED_EXTENSIONS →
      allowed_file (base ++ "." ++ e) = true) := by
  refine ⟨?_, ?_, ?_⟩
  · cases h : rsplitExt filename with
    | none =>
      have hdot : '.' ∉ filename.data := by
        intro hmem
        have hsome := (rsplitExt_isSome_iff filename).mpr hmem
        rw [h] at hsome
        simp at hsome
      constructor
      · intro hgate
        rw [allowed_file, h] at hgate
        exact Bool.noConfusion hgate
      · intro hc
        exact absurd hc.1 hdot
    | some e =>
      have hdot : '.' ∈ filename.data := by
        have : (rsplitExt filename).isSome = true := by rw [h]; rfl
        exact (rsplitExt_isSome_iff filename).mp this
      constructor
      · intro hgate
        rw [allowed_file, h] at hgate
        exact ⟨hdot, e, rfl, List.elem_iff.mp hgate⟩
      · rintro ⟨-, e', he', hmem⟩
        have he2 : e' = e := (Option.some.inj he').symm
        rw [allowed_file, h]
        show ALLOWED_EXTENSIONS.contains (strLower e) = true
        exact List.elem_iff.mpr (he2 ▸ hmem)
  · intro hdot
    cases h : rsplitExt filename with
    | none => rw [allowed_file, h]
    | some e =>
      have : (rsplitExt filename).isSome = true := by rw [h]; rfl
      exact absurd ((rsplitExt_isSome_iff filename).mp this) hdot
  · intro base e hdot hmem
    rw [allowed_file, rsplitExt_append base e hdot]
    exact List.elem_iff.mpr hmem

/-- Witness for C3: a cased allow-listed extension is accepted, a filename
with no dot is rejected. -/
theorem C3_format_gate_witness :
    allowed_file ("photo" ++ "." ++ "JPG") = true ∧
      allowed_file "README" = false :=
  ⟨(C3_format_gate ("photo" ++ "." ++ "JPG")).2.2 "photo" "JPG" (by decide)
      (by decide),
    (C3_format_gate "README").2.1 (by decide)⟩

-- ## Claim C1: the PDF Page Resolver

/-- C1: pages are visited in document order and the result is the
concatenation of the per-page contributions; a page whose embedded text
layer is present with stripped length exceeding 20 contributes exactly its
untrimmed text plus a trailing newline, whatever the OCR oracle does (the
page is never rasterized); every other page — including one whose extraction
yields nothing — contributes the OCR output of each of its rasterized
images, each plus a trailing newline. -/
theorem C1_pdf_page_resolver (pages : List PdfPage) (lang : String) :
    process_pdf pages lang =
      String.join (pages.map (fun p => process_pdf [p] lang)) ∧
    (∀ (content : String) (f : String → List String),
      20 < (pyStrip content).length →
      process_pdf [⟨some content, f⟩] lang = content ++ "\n") ∧
    (∀ p : PdfPage,
      (∀ content, p.extract_text = some content →
        (pyStrip content).length ≤ 20) →
      process_pdf [p] lang =
        String.join ((p.ocr_results lang).map (fun o => o ++ "\n"))) := by
  refine ⟨?_, ?_, ?_⟩
  · induction pages with
    | nil => rfl
    | cons p ps ih =>
      have hfold : ∀ (l : List PdfPage) (acc : String),
          l.foldl (pdfPageStep lang) acc = acc ++ l.foldl (pdfPageStep lang) "" :=
        foldl_acc_of_step (pdfPageStep lang) (fun acc x => pdfPageStep_acc lang acc x)
      show (p :: ps).foldl (pdfPageStep lang) "" = _
      rw [List.foldl_cons, hfold ps (pdfPageStep lang "" p), List.map_cons, join_cons]
      exact congrArg (fun t => pdfPageStep lang "" p ++ t) ih
  · intro content f h
    have hne : content ≠ "" :=
      ne_empty_of_strip_length_pos content (Nat.lt_of_lt_of_le (by decide) (Nat.le_of_lt h))
    show pdfPageStep lang "" ⟨some content, f⟩ = content ++ "\n"
    rw [pdfPageStep_some, if_pos ⟨hne, h⟩, String.empty_append]
  · intro p hle
    obtain ⟨et, f⟩ := p
    cases et with
    | none =>
      show pdfPageStep lang "" ⟨none, f⟩ = _
      rw [pdfPageStep_none]
      exact ocr_foldl_eq_join (f lang)
    | some content =>
      have hnot : ¬ (content ≠ "" ∧ 20 < (pyStrip content).length) := by
        rintro ⟨-, hgt⟩
        exact absurd hgt (Nat.not_lt.mpr (hle content rfl))
      show pdfPageStep lang "" ⟨some content, f⟩ = _
      rw [pdfPageStep_some, if_neg hnot]
      exact ocr_foldl_eq_join (f lang)

/-- Witness for C1: a page with a long embedded text layer keeps its text and
ignores the OCR oracle; a page with no text layer yields the OCR output. -/
theorem C1_pdf_page_resolver_witness :
    process_pdf [⟨some "This embedded page text is long.", fun _ => ["OCR-A"]⟩]
        "eng" = "This embedded page text is long.\n" ∧
      process_pdf [(⟨none, fun _ => ["OCR-B"]⟩ : PdfPage)] "eng" = "OCR-B\n" := by
  constructor
  · exact (C1_pdf_page_resolver [] "eng").2.1 "This embedded page text is long."
      (fun _ => ["OCR-A"]) (by decide)
  · have h := (C1_pdf_page_resolver [] "eng").2.2 ⟨none, fun _ => ["OCR-B"]⟩
      (fun c hc => Option.noConfusion hc)
    rw [h]
    decide

-- ## Handler shape lemmas

theorem process_valid_eq (env : Env) (req : Request) (fs0 : FS)
    (hf : req.hasFile = true) (hn : ¬ req.filename = "") :
    process env req fs0 =
      match process_try env req (env.secure_filename req.filename)
          (fsWrite fs0 (inputPath env req) (.bytes req.fileContent)) with
      | .ok (resp, fs2) => (resp, fsRemove fs2 (inputPath env req))
      | .error msg =>
        (.serverError msg,
          fsRemove (fsWrite fs0 (inputPath env req) (.bytes req.fileContent))
            (inputPath env req)) := by
  simp only [process, hf, hn, inputPath, if_false, ite_false, Bool.true_eq_false,
    eq_self_iff_true]

theorem process_try_success_eq (env : Env) (req : Request) (filename : String)
    (fs1 : FS) (e t : String)
    (he : rsplitExt filename = some e)
    (ht : dispatch_extract env req.fileContent (req.lang.getD "eng+hin")
      (strLower e) = .ok t)
    (hnb : ¬ pyStrip t = "") :
    process_try env req filename fs1 =
      .ok (.ok (pySlice t 1500)
          ("/download/" ++ (rsplitBase filename ++ "_" ++ env.timestamp ++ "."
            ++ req.format.getD "txt"))
          (rsplitBase filename ++ "_" ++ env.timestamp ++ "."
            ++ req.format.getD "txt"),
        format_output (req.format.getD "txt") t
          (OUTPUT_FOLDER ++ "/" ++ (rsplitBase filename ++ "_" ++ env.timestamp
            ++ "." ++ req.format.getD "txt")) fs1) := by
  simp only [process_try, he, ht, hnb, if_false, ite_false]

theorem process_try_nodetect_eq (env : Env) (req : Request) (filename : String)
    (fs1 : FS) (e t : String)
    (he : rsplitExt filename = some e)
    (ht : dispatch_extract env req.fileContent (req.lang.getD "eng+hin")
      (strLower e) = .ok t)
    (hw : pyStrip t = "") :
    process_try env req filename fs1 =
      .ok (.badRequest "Could not detect any text. Ensure the image is clear.",
        fs1) := by
  simp only [process_try, he, ht, hw, if_true, ite_true, eq_self_iff_true]

theorem process_try_nodot_eq (env : Env) (req : Request) (filename : String)
    (fs1 : FS) (he : rsplitExt filename = none) :
    process_try env req filename fs1 = .error "list index out of range" := by
  simp only [process_try, he]

theorem process_success_eq (env : Env) (req : Request) (fs0 : FS) (e t : String)
    (hf : req.hasFile = true) (hn : ¬ req.filename = "")
    (he : rsplitExt (env.secure_filename req.filename) = some e)
    (ht : dispatch_extract env req.fileContent (req.lang.getD "eng+hin")
      (strLower e) = .ok t)
    (hnb : ¬ pyStrip t = "") :
    process env req fs0 =
      (.ok (pySlice t 1500) ("/download/" ++ outFilename env req)
          (outFilename env req),
        fsRemove
          (format_output (req.format.getD "txt") t
            (OUTPUT_FOLDER ++ "/" ++ outFilename env req)
            (fsWrite fs0 (inputPath env req) (.bytes req.fileContent)))
          (inputPath env req)) := by
  rw [process_valid_eq env req fs0 hf hn,
    process_try_success_eq env req (env.secure_filename req.filename) _ e t he ht hnb]
  rfl

theorem process_nodetect_eq (env : Env) (req : Request) (fs0 : FS) (e t : String)
    (hf : req.hasFile = true) (hn : ¬ req.filename = "")
    (he : rsplitExt (env.secure_filename req.filename) = some e)
    (ht : dispatch_extract env req.fileContent (req.lang.getD "eng+hin")
      (strLower e) = .ok t)
    (hw : pyStrip t = "") :
    process env req fs0 =
      (.badRequest "Could not detect any text. Ensure the image is clear.",
        fsRemove (fsWrite fs0 (inputPath env req) (.bytes req.fileContent))
          (inputPath env req)) := by
  rw [process_valid_eq env req fs0 hf hn,
    process_try_nodetect_eq env req (env.secure_filename req.filename) _ e t he ht hw]

theorem process_nodot_eq (env : Env) (req : Request) (fs0 : FS)
    (hf : req.hasFile = true) (hn : ¬ req.filename = "")
    (he : rsplitExt (env.secure_filename req.filename) = none) :
    process env req fs0 =
      (.serverError "list index out of range",
        fsRemove (fsWrite fs0 (inputPath env req) (.bytes req.fileContent))
          (inputPath env req)) := by
  rw [process_valid_eq env req fs0 hf hn,
    process_try_nodot_eq env req (env.secure_filename req.filename) _ he]

theorem dispatch_extract_default (env : Env) (content lang ext : String)
    (h : ext ∉ (["pdf", "jpg", "jpeg", "png", "docx"] : List String)) :
    dispatch_extract env content lang ext = env.read_utf8 content := by
  have h1 : ¬ ext = "pdf" := fun hh => h (by rw [hh]; decide)
  have h3 : ¬ ext = "docx" := fun hh => h (by rw [hh]; decide)
  have h2 : ¬ (["jpg", "jpeg", "png"] : List String).contains ext = true := by
    intro hc
    have hmem := List.elem_iff.mp hc
    simp only [List.mem_cons, List.mem_singleton, List.not_mem_nil, or_false] at hmem
    rcases hmem with h' | h' | h' <;> (rw [h'] at h; exact h (by decide))
  rw [dispatch_extract, if_neg h1, if_neg h2, if_neg h3]

/-- Artifact paths and staging paths live in different directories. -/
theorem out_path_ne_input_path (a b : String) :
    OUTPUT_FOLDER ++ "/" ++ a ≠ UPLOAD_FOLDER ++ "/" ++ b := by
  intro h
  have hh : (OUTPUT_FOLDER ++ "/" ++ a).data.head? =
      (UPLOAD_FOLDER ++ "/" ++ b).data.head? := congrArg (fun s => s.data.head?) h
  have h1 : (OUTPUT_FOLDER ++ "/" ++ a).data.head? = some 'o' := rfl
  have h2 : (UPLOAD_FOLDER ++ "/" ++ b).data.head? = some 'u' := rfl
  rw [h1, h2] at hh
  simp at hh

theorem process_try_ok_filename (env : Env) (req : Request) (filename : String)
    (fs1 : FS) (pv du fn : String) (fs2 : FS)
    (h : process_try env req filename fs1 = .ok (.ok pv du fn, fs2)) :
    fn = rsplitBase filename ++ "_" ++ env.timestamp ++ "."
      ++ req.format.getD "txt" := by
  simp only [process_try] at h
  split at h
  · simp at h
  · split at h
    · simp at h
    · split at h
      · simp at h
      · simp only [Except.ok.injEq, Prod.mk.injEq, Response.ok.injEq] at h
        exact h.1.2.2.symm

theorem process_ok_filename (env : Env) (req : Request) (fs0 : FS)
    (pv du fn : String) (g : FS)
    (h : process env req fs0 = (.ok pv du fn, g)) :
    fn = outFilename env req := by
  simp only [process] at h
  split at h
  · simp at h
  · split at h
    · simp at h
    · split at h
      · rename_i resp fs2 heq
        have hresp : resp = .ok pv du fn := congrArg Prod.fst h
        rw [hresp] at heq
        exact process_try_ok_filename env req (env.secure_filename req.filename)
          _ pv du fn fs2 heq
      · simp at h

/-- Cancel the shared base-name prefix and extension suffix of two artifact
filenames. -/
theorem timestamp_append_inj (b t1 t2 f : String)
    (h : b ++ "_" ++ t1 ++ "." ++ f = b ++ "_" ++ t2 ++ "." ++ f) : t1 = t2 := by
  have hd := congrArg String.data h
  simp only [String.data_append] at hd
  have h1 := List.append_cancel_right hd
  have h2 := List.append_cancel_right h1
  have h3 := List.append_cancel_left h2
  exact String.ext h3

-- ## Claim C4: guaranteed cleanup of the staged upload

/-- C4: whenever the upload is persisted (the request has a file part and a
non-empty filename), the staged file is absent from the inbound staging
directory after the response, on every exit path — success, handled 400, or
an exception converted to a 500 (the quantification over `env` covers them
all, including the `IndexError` path). -/
theorem C4_staged_upload_cleanup (env : Env) (req : Request) (fs0 : FS)
    (hf : req.hasFile = true) (hn : req.filename ≠ "") :
    fsLookup (process env req fs0).2 (inputPath env req) = none := by
  rw [process_valid_eq env req fs0 hf hn]
  cases process_try env req (env.secure_filename req.filename)
      (fsWrite fs0 (inputPath env req) (.bytes req.fileContent)) with
  | ok pr =>
    obtain ⟨resp, fs2⟩ := pr
    exact fsLookup_fsRemove_self fs2 (inputPath env req)
  | error msg =>
    exact fsLookup_fsRemove_self _ (inputPath env req)

/-- Witness for C4 at a concrete request. -/
theorem C4_staged_upload_cleanup_witness :
    fsLookup (process testEnv ⟨true, "scan.txt", "AAAA", none, none⟩ []).2
      (inputPath testEnv ⟨true, "scan.txt", "AAAA", none, none⟩) = none :=
  C4_staged_upload_cleanup testEnv ⟨true, "scan.txt", "AAAA", none, none⟩ []
    rfl (by decide)

-- ## Claim C10: rejection happens before persistence

/-- C10: a request with no file part, or with an empty filename, receives its
400 response before the upload is persisted — the filesystem comes back
exactly unchanged. -/
theorem C10_reject_before_persist (env : Env) (req : Request) (fs : FS) :
    (req.hasFile = false →
      process env req fs = (.badRequest "No file part", fs)) ∧
    (req.hasFile = true → req.filename = "" →
      process env req fs = (.badRequest "No selected file", fs)) := by
  constructor
  · intro h
    simp only [process, h, if_true, ite_true, eq_self_iff_true]
  · intro hf he
    simp only [process, hf, he, Bool.true_eq_false, if_false, ite_false,
      if_true, ite_true, eq_self_iff_true]

/-- Witness for C10: both rejection paths at concrete requests, with the
filesystem untouched. -/
theorem C10_reject_before_persist_witness :
    process testEnv ⟨false, "scan.txt", "AAAA", none, none⟩ [] =
        (.badRequest "No file part", []) ∧
      process testEnv ⟨true, "", "AAAA", none, none⟩ [] =
        (.badRequest "No selected file", []) :=
  ⟨(C10_reject_before_persist testEnv ⟨false, "scan.txt", "AAAA", none, none⟩
      []).1 rfl,
    (C10_reject_before_persist testEnv ⟨true, "", "AAAA", none, none⟩ []).2
      rfl rfl⟩

-- ## Claim C5: whitespace-only extraction is rejected

/-- C5: when extraction yields text that strips to empty, the handler
returns the 400 "no text" response and writes no artifact (every path other
than the staged upload's is untouched); conversely a success response is
only possible when the extracted text strips non-empty. -/
theorem C5_whitespace_only_rejected (env : Env) (req : Request) (fs0 : FS)
    (e t : String)
    (hf : req.hasFile = true) (hn : req.filename ≠ "")
    (he : rsplitExt (env.secure_filename req.filename) = some e)
    (ht : dispatch_extract env req.fileContent (req.lang.getD "eng+hin")
      (strLower e) = .ok t) :
    (pyStrip t = "" →
      (process env req fs0).1 =
          .badRequest "Could not detect any text. Ensure the image is clear." ∧
        ∀ p, p ≠ inputPath env req →
          fsLookup (process env req fs0).2 p = fsLookup fs0 p) ∧
    (∀ pv du fn, (process env req fs0).1 = .ok pv du fn → pyStrip t ≠ "") := by
  constructor
  · intro hw
    rw [process_nodetect_eq env req fs0 e t hf hn he ht hw]
    refine ⟨rfl, ?_⟩
    intro p hp
    show fsLookup (fsRemove (fsWrite fs0 (inputPath env req)
      (.bytes req.fileContent)) (inputPath env req)) p = fsLookup fs0 p
    rw [fsLookup_fsRemove_ne _ _ _ hp, fsLookup_fsWrite_ne _ _ _ _ hp]
  · intro pv du fn hok hw
    rw [process_nodetect_eq env req fs0 e t hf hn he ht hw] at hok
    exact Response.noConfusion hok

/-- Witness for C5: a whitespace-only text upload yields the 400 response. -/
theorem C5_whitespace_only_rejected_witness :
    (process testEnv ⟨true, "blank.txt", "   ", none, none⟩ []).1 =
      .badRequest "Could not detect any text. Ensure the image is clear." :=
  ((C5_whitespace_only_rejected testEnv ⟨true, "blank.txt", "   ", none, none⟩
      [] "txt" "   " rfl (by decide) rfl rfl).1 rfl).1

-- ## Claim C2: the plain-text fallback of the dispatcher

/-- C2 counterexample: an upload whose sanitized filename has no '.' at all
is not read as UTF-8 text — `filename.rsplit('.', 1)[1]` raises an
`IndexError`, which surfaces as a 500 server error instead of a success. -/
theorem C2_counterexample :
    (process testEnv ⟨true, "Makefile", "hello world", none, none⟩ []).1 =
      .serverError "list index out of range" := rfl

/-- C2 (amended): for an upload whose sanitized filename contains a '.' and
whose lowercase extension is none of pdf, jpg, jpeg, png, docx, the
dispatcher reads the staged file as UTF-8 and uses that text verbatim as the
extracted text; an upload whose sanitized filename has no '.' instead
raises an `IndexError` surfaced as a 500 error. -/
theorem C2_plain_text_fallback (env : Env) (req : Request) (fs0 : FS)
    (hf : req.hasFile = true) (hn : req.filename ≠ "") :
    (∀ e s, rsplitExt (env.secure_filename req.filename) = some e →
      strLower e ∉ (["pdf", "jpg", "jpeg", "png", "docx"] : List String) →
      env.read_utf8 req.fileContent = .ok s → pyStrip s ≠ "" →
      (process env req fs0).1 =
        .ok (pySlice s 1500) ("/download/" ++ outFilename env req)
          (outFilename env req)) ∧
    (rsplitExt (env.secure_filename req.filename) = none →
      (process env req fs0).1 = .serverError "list index out of range") := by
  constructor
  · intro e s he hx hr hnb
    have ht : dispatch_extract env req.fileContent (req.lang.getD "eng+hin")
        (strLower e) = .ok s := by
      rw [dispatch_extract_default env req.fileContent _ _ hx, hr]
    rw [process_success_eq env req fs0 e s hf hn he ht hnb]
  · intro he
    rw [process_nodot_eq env req fs0 hf hn he]

/-- Witness for C2 (amended): a `.rst` upload is read as plain text and its
contents become the extracted text of a success response. -/
theorem C2_plain_text_fallback_witness :
    (process testEnv ⟨true, "notes.rst", "plain body", none, none⟩ []).1 =
      .ok (pySlice "plain body" 1500)
        ("/download/" ++
          outFilename testEnv ⟨true, "notes.rst", "plain body", none, none⟩)
        (outFilename testEnv ⟨true, "notes.rst", "plain body", none, none⟩) :=
  (C2_plain_text_fallback testEnv ⟨true, "notes.rst", "plain body", none, none⟩
      [] rfl (by decide)).1 "rst" "plain body" rfl (by decide) rfl (by decide)

-- ## Claim C6: unrecognized target formats

/-- C6: a target format outside {txt, md, docx, csv} (with successful,
non-whitespace extraction) writes no artifact — the artifact path keeps its
prior contents, so it stays absent if it was absent — yet the response still
reports success and names the nonexistent artifact in both `download_url`
and `filename`. -/
theorem C6_unknown_format_no_artifact (env : Env) (req : Request) (fs0 : FS)
    (e t : String)
    (hf : req.hasFile = true) (hn : req.filename ≠ "")
    (he : rsplitExt (env.secure_filename req.filename) = some e)
    (ht : dispatch_extract env req.fileContent (req.lang.getD "eng+hin")
      (strLower e) = .ok t)
    (hnb : pyStrip t ≠ "")
    (hfmt : req.format.getD "txt" ∉ (["txt", "md", "docx", "csv"] : List String)) :
    (process env req fs0).1 =
      .ok (pySlice t 1500) ("/download/" ++ outFilename env req)
        (outFilename env req) ∧
    fsLookup (process env req fs0).2
        (OUTPUT_FOLDER ++ "/" ++ outFilename env req) =
      fsLookup fs0 (OUTPUT_FOLDER ++ "/" ++ outFilename env req) := by
  have h1 : ¬ req.format.getD "txt" = "txt" := fun hh => hfmt (by rw [hh]; decide)
  have h2 : ¬ req.format.getD "txt" = "md" := fun hh => hfmt (by rw [hh]; decide)
  have h3 : ¬ req.format.getD "txt" = "docx" := fun hh => hfmt (by rw [hh]; decide)
  have h4 : ¬ req.format.getD "txt" = "csv" := fun hh => hfmt (by rw [hh]; decide)
  rw [process_success_eq env req fs0 e t hf hn he ht hnb]
  refine ⟨rfl, ?_⟩
  show fsLookup (fsRemove (format_output (req.format.getD "txt") t
      (OUTPUT_FOLDER ++ "/" ++ outFilename env req)
      (fsWrite fs0 (inputPath env req) (.bytes req.fileContent)))
      (inputPath env req)) (OUTPUT_FOLDER ++ "/" ++ outFilename env req) = _
  have hne : OUTPUT_FOLDER ++ "/" ++ outFilename env req ≠ inputPath env req :=
    out_path_ne_input_path _ _
  simp only [format_output, h1, h2, h3, h4, if_false, ite_false]
  rw [fsLookup_fsRemove_ne _ _ _ hne, fsLookup_fsWrite_ne _ _ _ _ hne]

/-- Witness for C6: `format=xml` produces a success response naming an
artifact that was never written. -/
theorem C6_unknown_format_no_artifact_witness :
    (process testEnv ⟨true, "scan.txt", "AAAA", some "xml", none⟩ []).1 =
        .ok (pySlice "AAAA" 1500)
          ("/download/" ++
            outFilename testEnv ⟨true, "scan.txt", "AAAA", some "xml", none⟩)
          (outFilename testEnv ⟨true, "scan.txt", "AAAA", some "xml", none⟩) ∧
      fsLookup (process testEnv ⟨true, "scan.txt", "AAAA", some "xml", none⟩ []).2
          (OUTPUT_FOLDER ++ "/" ++
            outFilename testEnv ⟨true, "scan.txt", "AAAA", some "xml", none⟩) =
        fsLookup []
          (OUTPUT_FOLDER ++ "/" ++
            outFilename testEnv ⟨true, "scan.txt", "AAAA", some "xml", none⟩) :=
  C6_unknown_format_no_artifact testEnv ⟨true, "scan.txt", "AAAA", some "xml", none⟩
    [] "txt" "AAAA" rfl (by decide) rfl rfl (by decide) (by decide)

-- ## Claim C7: txt round-trip

/-- C7: for target format txt the artifact's stored contents are exactly the
extracted text — reading the written file back yields the original string,
unchanged. -/
theorem C7_txt_roundtrip (env : Env) (req : Request) (fs0 : FS) (e t : String)
    (hf : req.hasFile = true) (hn : req.filename ≠ "")
    (he : rsplitExt (env.secure_filename req.filename) = some e)
    (ht : dispatch_extract env req.fileContent (req.lang.getD "eng+hin")
      (strLower e) = .ok t)
    (hnb : pyStrip t ≠ "")
    (hfmt : req.format.getD "txt" = "txt") :
    fsLookup (process env req fs0).2
      (OUTPUT_FOLDER ++ "/" ++ outFilename env req) = some (.bytes t) := by
  rw [process_success_eq env req fs0 e t hf hn he ht hnb]
  have hne : OUTPUT_FOLDER ++ "/" ++ outFilename env req ≠ inputPath env req :=
    out_path_ne_input_path _ _
  show fsLookup (fsRemove (format_output (req.format.getD "txt") t
      (OUTPUT_FOLDER ++ "/" ++ outFilename env req)
      (fsWrite fs0 (inputPath env req) (.bytes req.fileContent)))
      (inputPath env req)) (OUTPUT_FOLDER ++ "/" ++ outFilename env req) = _
  rw [fsLookup_fsRemove_ne _ _ _ hne]
  simp only [format_output, hfmt, if_true, ite_true, eq_self_iff_true]
  exact fsLookup_fsWrite_self _ _ _

/-- Witness for C7: the txt artifact of a concrete request reads back as the
uploaded text. -/
theorem C7_txt_roundtrip_witness :
    fsLookup (process testEnv ⟨true, "scan.txt", "AAAA", none, none⟩ []).2
        (OUTPUT_FOLDER ++ "/" ++
          outFilename testEnv ⟨true, "scan.txt", "AAAA", none, none⟩) =
      some (.bytes "AAAA") :=
  C7_txt_roundtrip testEnv ⟨true, "scan.txt", "AAAA", none, none⟩ [] "txt"
    "AAAA" rfl (by decide) rfl rfl (by decide) rfl

-- ## Claim C8: csv rows

/-- C8: for target format csv the artifact stores the single "Content"
header, the byte-order-mark flag, and exactly the lines of the text (split
on newline) whose stripped form is non-empty, in order; the number of data
rows equals the count of non-blank lines, and no stored row is blank. -/
theorem C8_csv_rows (env : Env) (req : Request) (fs0 : FS) (e t : String)
    (hf : req.hasFile = true) (hn : req.filename ≠ "")
    (he : rsplitExt (env.secure_filename req.filename) = some e)
    (ht : dispatch_extract env req.fileContent (req.lang.getD "eng+hin")
      (strLower e) = .ok t)
    (hnb : pyStrip t ≠ "")
    (hfmt : req.format.getD "txt" = "csv") :
    fsLookup (process env req fs0).2
        (OUTPUT_FOLDER ++ "/" ++ outFilename env req) =
      some (.csvFile "Content"
        ((pySplitLines t).filter (fun l => pyStrip l ≠ "")) true) ∧
    ((pySplitLines t).filter (fun l => pyStrip l ≠ "")).length =
      (pySplitLines t).countP (fun l => pyStrip l ≠ "") ∧
    (∀ l, l ∈ (pySplitLines t).filter (fun l => pyStrip l ≠ "") →
      pyStrip l ≠ "") := by
  refine ⟨?_, ?_, ?_⟩
  · rw [process_success_eq env req fs0 e t hf hn he ht hnb]
    have hne : OUTPUT_FOLDER ++ "/" ++ outFilename env req ≠ inputPath env req :=
      out_path_ne_input_path _ _
    show fsLookup (fsRemove (format_output (req.format.getD "txt") t
        (OUTPUT_FOLDER ++ "/" ++ outFilename env req)
        (fsWrite fs0 (inputPath env req) (.bytes req.fileContent)))
        (inputPath env req)) (OUTPUT_FOLDER ++ "/" ++ outFilename env req) = _
    rw [fsLookup_fsRemove_ne _ _ _ hne]
    simp only [format_output, hfmt]
    rw [if_pos trivial]
    exact fsLookup_fsWrite_self _ _ _
  · exact (List.countP_eq_length_filter _ _).symm
  · intro l hl
    exact of_decide_eq_true (List.mem_filter.mp hl).2

/-- Witness for C8: `format=csv` on "line1\n\nline2" yields the header and
exactly the two non-blank rows. -/
theorem C8_csv_rows_witness :
    fsLookup (process testEnv
        ⟨true, "scan.txt", "line1\n\nline2", some "csv", none⟩ []).2
        (OUTPUT_FOLDER ++ "/" ++
          outFilename testEnv ⟨true, "scan.txt", "line1\n\nline2", some "csv", none⟩) =
      some (.csvFile "Content"
        ((pySplitLines "line1\n\nline2").filter (fun l => pyStrip l ≠ "")) true) ∧
      ((pySplitLines "line1\n\nline2").filter (fun l => pyStrip l ≠ "")) =
        ["line1", "line2"] :=
  ⟨(C8_csv_rows testEnv ⟨true, "scan.txt", "line1\n\nline2", some "csv", none⟩
      [] "txt" "line1\n\nline2" rfl (by decide) rfl rfl (by decide) rfl).1,
    by decide⟩

-- ## Claim C9: artifact filename uniqueness

set_option maxRecDepth 4000 in
/-- C9 counterexample: two distinct successful requests handled within the
same second (equal timestamps) with the same uploaded base name and target
format produce the SAME artifact filename, and the second run overwrites the
first artifact ("AAAA" is replaced by "BBBB"). -/
theorem C9_counterexample :
    (⟨true, "scan.txt", "AAAA", none, none⟩ : Request) ≠
        ⟨true, "scan.txt", "BBBB", none, none⟩ ∧
      (process testEnv ⟨true, "scan.txt", "AAAA", none, none⟩ []).1 =
        .ok "AAAA" "/download/scan_20240101_000000.txt"
          "scan_20240101_000000.txt" ∧
      (process testEnv ⟨true, "scan.txt", "BBBB", none, none⟩
          (process testEnv ⟨true, "scan.txt", "AAAA", none, none⟩ []).2).1 =
        .ok "BBBB" "/download/scan_20240101_000000.txt"
          "scan_20240101_000000.txt" ∧
      fsLookup (process testEnv ⟨true, "scan.txt", "BBBB", none, none⟩
          (process testEnv ⟨true, "scan.txt", "AAAA", none, none⟩ []).2).2
        "outputs/scan_20240101_000000.txt" = some (.bytes "BBBB") := by
  have e1 : process testEnv ⟨true, "scan.txt", "AAAA", none, none⟩ [] =
      (.ok "AAAA" "/download/scan_20240101_000000.txt"
          "scan_20240101_000000.txt",
        [("outputs/scan_20240101_000000.txt", FileData.bytes "AAAA")]) := by
    rw [process_success_eq testEnv ⟨true, "scan.txt", "AAAA", none, none⟩ []
      "txt" "AAAA" rfl (by decide) rfl rfl (by decide)]
    rfl
  have e2 : process testEnv ⟨true, "scan.txt", "BBBB", none, none⟩
      [("outputs/scan_20240101_000000.txt", FileData.bytes "AAAA")] =
      (.ok "BBBB" "/download/scan_20240101_000000.txt"
          "scan_20240101_000000.txt",
        [("outputs/scan_20240101_000000.txt", FileData.bytes "BBBB")]) := by
    rw [process_success_eq testEnv ⟨true, "scan.txt", "BBBB", none, none⟩ _
      "txt" "BBBB" rfl (by decide) rfl rfl (by decide)]
    rfl
  refine ⟨by decide, ?_, ?_, ?_⟩
  · rw [e1]
  · rw [e1, e2]
  · rw [e1, e2]
    decide

/-- C9 (amended): artifact filenames of two successful requests with the
same base name and target format differ exactly when their request
timestamps differ; requests falling in the same second collide (see the
counterexample), those in different seconds never do. -/
theorem C9_distinct_timestamps (env1 env2 : Env) (req1 req2 : Request)
    (fs1 fs2 g1 g2 : FS) (pv1 pv2 du1 du2 fn1 fn2 : String)
    (h1 : process env1 req1 fs1 = (.ok pv1 du1 fn1, g1))
    (h2 : process env2 req2 fs2 = (.ok pv2 du2 fn2, g2))
    (hbase : rsplitBase (env1.secure_filename req1.filename) =
      rsplitBase (env2.secure_filename req2.filename))
    (hfmt : req1.format.getD "txt" = req2.format.getD "txt")
    (hts : env1.timestamp ≠ env2.timestamp) :
    fn1 ≠ fn2 := by
  rw [process_ok_filename env1 req1 fs1 pv1 du1 fn1 g1 h1,
    process_ok_filename env2 req2 fs2 pv2 du2 fn2 g2 h2]
  intro hcontra
  simp only [outFilename] at hcontra
  rw [hbase, hfmt] at hcontra
  exact hts (timestamp_append_inj _ _ _ _ hcontra)

set_option maxRecDepth 4000 in
/-- Witness for C9 (amended): the same request processed one second apart
yields two different artifact filenames. -/
theorem C9_distinct_timestamps_witness :
    ("scan_20240101_000000.txt" : String) ≠ "scan_20240101_000001.txt" := by
  have h1 : process testEnv ⟨true, "scan.txt", "AAAA", none, none⟩ [] =
      (.ok "AAAA" "/download/scan_20240101_000000.txt"
          "scan_20240101_000000.txt",
        [("outputs/scan_20240101_000000.txt", FileData.bytes "AAAA")]) := by
    rw [process_success_eq testEnv ⟨true, "scan.txt", "AAAA", none, none⟩ []
      "txt" "AAAA" rfl (by decide) rfl rfl (by decide)]
    rfl
  have h2 : process testEnvLater ⟨true, "scan.txt", "AAAA", none, none⟩ [] =
      (.ok "AAAA" "/download/scan_20240101_000001.txt"
          "scan_20240101_000001.txt",
        [("outputs/scan_20240101_000001.txt", FileData.bytes "AAAA")]) := by
    rw [process_success_eq testEnvLater ⟨true, "scan.txt", "AAAA", none, none⟩ []
      "txt" "AAAA" rfl (by decide) rfl rfl (by decide)]
    rfl
  exact C9_distinct_timestamps testEnv testEnvLater
    ⟨true, "scan.txt", "AAAA", none, none⟩ ⟨true, "scan.txt", "AAAA", none, none⟩
    [] [] [("outputs/scan_20240101_000000.txt", .bytes "AAAA")]
    [("outputs/scan_20240101_000001.txt", .bytes "AAAA")]
    "AAAA" "AAAA" "/download/scan_20240101_000000.txt"
    "/download/scan_20240101_000001.txt"
    "scan_20240101_000000.txt" "scan_20240101_000001.txt"
    h1 h2 rfl rfl (by decide)
